import Mathlib

/-!
Shallow embedding of the Heartrate-Buttplug bridge (bp.js and main.js) and
proofs of the specified properties of its control loop, protocol handler,
connection supervisor and shutdown coordinator.
-/

namespace HeartrateButtplug

/-! ### Embedding of bp.js (connection supervisor singletons) -/

/-- Observable state of the bp.js module singletons.  `clientExists` models
`client !== null`, `clientConnected` models `client.connected`,
`deviceExists` models `device !== null`; the remaining fields are the
`connectionStatus` object (`lastErrorSet` models `lastError !== null`). -/
structure BpState where
  clientExists : Bool
  clientConnected : Bool
  deviceExists : Bool
  isConnecting : Bool
  isConnected : Bool
  lastErrorSet : Bool
  deriving DecidableEq, Repr

/-- Module load state of bp.js: `client = null`, `device = null`,
`connectionStatus = {isConnecting: false, isConnected: false, lastError: null}`. -/
def initialBpState : BpState :=
  { clientExists := false, clientConnected := false, deviceExists := false,
    isConnecting := false, isConnected := false, lastErrorSet := false }

/-- bp.js `isReady()`: `client && client.connected && device !== null`. -/
def isReady (s : BpState) : Bool :=
  s.clientExists && s.clientConnected && s.deviceExists

/-- bp.js `safeDisconnect()`: returns at once when `client` is null; otherwise
any errors from `device.stop()` and `client.disconnect()` are caught and
logged, and the `finally` block sets `client = null`, `device = null`,
`connectionStatus.isConnected = false`.  With `client` null its `connected`
flag is no longer observable, modelled as false. -/
def safeDisconnect (s : BpState) : BpState :=
  if s.clientExists then
    { s with clientExists := false, clientConnected := false,
             deviceExists := false, isConnected := false }
  else s

/-- How one `connectToButtplug` attempt resolves against the environment:
the transport connect rejects, `startScanning` rejects, the discovery window
elapses with no device, or a device is found. -/
inductive ConnectOutcome
  | connectFail
  | scanFail
  | discoveryTimeout
  | deviceFound
  deriving DecidableEq, Repr

/-- How the promise returned by `connectToButtplug` settles. -/
inductive ConnectResult
  | resolved
  | rejectedBusy
  | rejectedOther
  deriving DecidableEq, Repr

/-- bp.js `connectToButtplug(url, timeoutMs)`: busy guard, already-connected
fast path, then `isConnecting = true`, `lastError = null`, a fresh client is
created and connected, scanning starts and `waitForDevice` runs.  On success
`device` is set and `isConnected = true`; on any failure the catch sets
`lastError`, awaits `safeDisconnect()` and rethrows; the finally clears
`isConnecting` on every path through the body. -/
def connectToButtplug (outcome : ConnectOutcome) (s : BpState) :
    BpState × ConnectResult :=
  if s.isConnecting then (s, .rejectedBusy)
  else if s.clientExists && s.clientConnected then (s, .resolved)
  else
    match outcome with
    | .connectFail =>
        let s1 : BpState :=
          { s with isConnecting := true, lastErrorSet := true,
                   clientExists := true, clientConnected := false }
        ({ safeDisconnect s1 with isConnecting := false }, .rejectedOther)
    | .scanFail =>
        let s1 : BpState :=
          { s with isConnecting := true, lastErrorSet := true,
                   clientExists := true, clientConnected := true }
        ({ safeDisconnect s1 with isConnecting := false }, .rejectedOther)
    | .discoveryTimeout =>
        let s1 : BpState :=
          { s with isConnecting := true, lastErrorSet := true,
                   clientExists := true, clientConnected := true }
        ({ safeDisconnect s1 with isConnecting := false }, .rejectedOther)
    | .deviceFound =>
        ({ s with isConnecting := false, lastErrorSet := false,
                  clientExists := true, clientConnected := true,
                  deviceExists := true, isConnected := true }, .resolved)

/-- bp.js `disconnectButtplug()`: awaits `safeDisconnect()` and logs. -/
def disconnectButtplug (s : BpState) : BpState :=
  safeDisconnect s

/-- At most one of `connectionStatus.isConnecting` and
`connectionStatus.isConnected` is true. -/
def statusMutex (s : BpState) : Prop :=
  ¬(s.isConnecting = true ∧ s.isConnected = true)

/-- bp.js module states reachable from load time through the connection
supervisor operations. -/
inductive ReachableBp : BpState → Prop
  | init : ReachableBp initialBpState
  | connect (o : ConnectOutcome) {s : BpState} :
      ReachableBp s → ReachableBp (connectToButtplug o s).1
  | disconnect {s : BpState} :
      ReachableBp s → ReachableBp (disconnectButtplug s)
  | safeDisc {s : BpState} :
      ReachableBp s → ReachableBp (safeDisconnect s)

theorem statusMutex_safeDisconnect (s : BpState) (h : statusMutex s) :
    statusMutex (safeDisconnect s) := by
  unfold statusMutex safeDisconnect at *
  by_cases hc : s.clientExists <;> simp [hc] at *
  exact h

theorem statusMutex_connect (o : ConnectOutcome) (s : BpState)
    (h : statusMutex s) : statusMutex (connectToButtplug o s).1 := by
  unfold statusMutex connectToButtplug safeDisconnect at *
  by_cases h1 : s.isConnecting <;>
    by_cases h2 : s.clientExists && s.clientConnected <;>
      cases o <;> simp [h1, h2] at * <;> exact h

/-! ### Embedding of main.js (configuration, state, control loop, protocol
handler, retry logic, shutdown coordinator) -/

/-- The main.js `CONFIG` object. -/
structure Config where
  OBS_PORT : Nat
  BUTTPLUG_URL : String
  CONNECTION_RETRIES : Nat
  RETRY_DELAY_MS : Nat
  HR_THRESHOLD : Int
  UPDATE_INTERVAL_MS : Nat
  WEB_UI_PORT : Nat
  deriving DecidableEq, Repr

/-- main.js configuration constants. -/
def CONFIG : Config :=
  { OBS_PORT := 4456, BUTTPLUG_URL := "ws://localhost:12345",
    CONNECTION_RETRIES := 5, RETRY_DELAY_MS := 5000, HR_THRESHOLD := 100,
    UPDATE_INTERVAL_MS := 500, WEB_UI_PORT := 3000 }

/-- The main.js mutable `state` object.  `vibrationState` is the literal
string the source stores, `"on"` or `"off"`. -/
structure MainState where
  heartRate : Int
  vibrationState : String
  connectRetries : Nat
  shutdownInProgress : Bool
  deriving DecidableEq, Repr

/-- main.js initial `state`. -/
def initialState : MainState :=
  { heartRate := 0, vibrationState := "off", connectRetries := 0,
    shutdownInProgress := false }

/-- Whether an awaited device command (`on()` / `off()`) resolves or
rejects. -/
inductive CmdOutcome
  | success
  | failure
  deriving DecidableEq, Repr

/-- A device command call issued through bp.js. -/
inductive DeviceCmd
  | on
  | off
  deriving DecidableEq, Repr

/-- main.js `processHeartRate()`: one tick of the control loop.  `ready`
models `isReady()`; the outcomes state whether the awaited device command
resolves (a rejection is caught, logged, and leaves the state unchanged).
Returns the updated state together with the device commands called. -/
def processHeartRate (ready : Bool) (onOutcome offOutcome : CmdOutcome)
    (s : MainState) : MainState × List DeviceCmd :=
  if !ready || s.shutdownInProgress then (s, [])
  else if s.heartRate < CONFIG.HR_THRESHOLD ∧ s.vibrationState ≠ "on" then
    match onOutcome with
    | .success => ({ s with vibrationState := "on" }, [.on])
    | .failure => (s, [.on])
  else if CONFIG.HR_THRESHOLD ≤ s.heartRate ∧ s.vibrationState ≠ "off" then
    match offOutcome with
    | .success => ({ s with vibrationState := "off" }, [.off])
    | .failure => (s, [.off])
  else (s, [])

/-- `n` consecutive ticks of the control loop (the `setInterval` schedule),
accumulating the device commands called. -/
def runTicks (ready : Bool) (onOutcome offOutcome : CmdOutcome) :
    Nat → MainState → MainState × List DeviceCmd
  | 0, s => (s, [])
  | n + 1, s =>
    let r1 := processHeartRate ready onOutcome offOutcome s
    let r2 := runTicks ready onOutcome offOutcome n r1.1
    (r2.1, r1.2 ++ r2.2)

/-- Longest leading run of decimal digits as a number; `none` when there is
no leading digit (JavaScript `parseInt` then yields `NaN`). -/
def parseDigits (cs : List Char) : Option Nat :=
  let ds := cs.takeWhile (fun c => c.isDigit)
  if ds.isEmpty then none
  else some (ds.foldl (fun acc c => acc * 10 + (c.toNat - 48)) 0)

/-- JavaScript `parseInt(text, 10)`: skip leading whitespace, an optional
sign, then the longest prefix of decimal digits; `none` models `NaN`. -/
def jsParseInt (str : String) : Option Int :=
  match str.toList.dropWhile (fun c => c.isWhitespace) with
  | '-' :: rest => (parseDigits rest).map (fun n => -(n : Int))
  | '+' :: rest => (parseDigits rest).map (fun n => (n : Int))
  | rest => (parseDigits rest).map (fun n => (n : Int))

/-- The `inputSettings` object of a `SetInputSettings` request. -/
structure InputSettings where
  text : Option String
  deriving DecidableEq, Repr

/-- The `requestData` object of a request; each field may be absent. -/
structure RequestData where
  inputName : Option String
  inputSettings : Option InputSettings
  deriving DecidableEq, Repr

/-- The `d` payload of an inbound message. -/
structure RequestPayload where
  requestType : Option String
  requestId : Option String
  requestData : Option RequestData
  deriving DecidableEq, Repr

/-- An inbound JSON message `{op, d}`; either field may be absent. -/
structure InboundMsg where
  op : Option Int
  d : Option RequestPayload
  deriving DecidableEq, Repr

/-- Messages the server sends to a telemetry client. -/
inductive Outbound
  | hello (obsWebSocketVersion : String) (rpcVersion : Int)
  | identified (negotiatedRpcVersion : Int)
  | requestResponse (requestType : Option String) (requestId : Option String)
      (result : Bool) (code : Int)
  deriving DecidableEq, Repr

/-- JavaScript truthiness of the optional chain `inputSettings?.text`:
the text is present and not the empty string. -/
def truthyText : Option InputSettings → Option String
  | none => none
  | some st =>
    match st.text with
    | none => none
    | some t => if t = "" then none else some t

/-- Result of handling one inbound frame: the updated main.js state, the
messages sent back on the socket, and whether a TypeError escaped the
handler (destructuring `d.requestData` when `d` or `d.requestData` is
undefined). -/
structure HandlerResult where
  state : MainState
  outbound : List Outbound
  threw : Bool
  deriving DecidableEq, Repr

/-- The main.js `ws.on message` handler.  Input `none` models a frame that is
not valid JSON (logged and dropped).  `op = 1` answers with the `op = 2`
handshake reply; `op = 6` with `requestType` equal to `SetInputSettings`
updates the heart rate when `inputName` is the designated field and the text
parses, and always answers `op = 7` with status `{result: true, code: 100}`
echoing `requestId`; every other message gets no reply. -/
def handleMessage (msg : Option InboundMsg) (s : MainState) : HandlerResult :=
  match msg with
  | none => ⟨s, [], false⟩
  | some m =>
    if m.op = some 1 then ⟨s, [.identified 1], false⟩
    else if m.op = some 6 then
      match m.d with
      | none => ⟨s, [], true⟩
      | some d =>
        if d.requestType = some ("SetInputSettings") then
          match d.requestData with
          | none => ⟨s, [], true⟩
          | some rd =>
            let s1 :=
              match rd.inputName, truthyText rd.inputSettings with
              | some ("heartrate"), some t =>
                match jsParseInt t with
                | some hr => { s with heartRate := hr }
                | none => s
              | _, _ => s
            ⟨s1, [.requestResponse d.requestType d.requestId true 100], false⟩
        else ⟨s, [], false⟩
    else ⟨s, [], false⟩

/-- main.js `connectWithRetry()`: no-op under shutdown; on a resolved
`connectToButtplug` resets the retry counter; on a rejection increments it
and reschedules itself only while the counter is below
`CONFIG.CONNECTION_RETRIES`.  `outcome i` states whether the i-th attempt
resolves.  Returns the final state and the number of connection attempts
performed. -/
def connectWithRetry (outcome : Nat → Bool) (idx : Nat) (s : MainState) :
    MainState × Nat :=
  if s.shutdownInProgress then (s, 0)
  else if outcome idx then ({ s with connectRetries := 0 }, 1)
  else if h : s.connectRetries + 1 < CONFIG.CONNECTION_RETRIES then
    let r := connectWithRetry outcome (idx + 1)
      { s with connectRetries := s.connectRetries + 1 }
    (r.1, r.2 + 1)
  else ({ s with connectRetries := s.connectRetries + 1 }, 1)
termination_by CONFIG.CONNECTION_RETRIES - s.connectRetries
decreasing_by omega

/-- One step of the shutdown teardown sequence. -/
inductive ShutdownStep
  | clearTimer
  | deviceOff
  | disconnect
  | closeServer
  | killProc
  deriving DecidableEq, Repr

/-- Result of a `gracefulShutdown` invocation: the updated state, the
teardown steps performed, and the exit code passed to `process.exit`
(`none` when the latch made the call return without doing anything). -/
structure ShutdownRun where
  state : MainState
  steps : List ShutdownStep
  exitCode : Option Nat
  deriving DecidableEq, Repr

/-- main.js `gracefulShutdown()`: latch check, set the latch, clear the tick
interval, then one try block that awaits `off()` when the device is ready
and engaged, awaits `disconnectButtplug()`, closes the WebSocket server,
kills the child process when one was spawned, and exits 0; any rejection
inside the try jumps to the catch, which exits 1.  `ready` models
`isReady()`; `offOutcome` models whether the awaited `off()` rejects — the
only await in the try that can reject, since `disconnectButtplug` swallows
its errors and the close callback always resolves; `hasProc` models
`buttplugProc` being non-null. -/
def gracefulShutdown (ready : Bool) (offOutcome : CmdOutcome)
    (hasProc : Bool) (s : MainState) : ShutdownRun :=
  if s.shutdownInProgress then ⟨s, [], none⟩
  else
    let s1 := { s with shutdownInProgress := true }
    if ready = true ∧ s1.vibrationState = "on" then
      match offOutcome with
      | .failure => ⟨s1, [.clearTimer, .deviceOff], some 1⟩
      | .success =>
        ⟨s1, [.clearTimer, .deviceOff, .disconnect, .closeServer] ++
             (if hasProc then [.killProc] else []), some 0⟩
    else
      ⟨s1, [.clearTimer, .disconnect, .closeServer] ++
           (if hasProc then [.killProc] else []), some 0⟩

/-! ### Control loop claims -/

/-- Claim C1: after one tick of `processHeartRate` with a ready actuator,
shutdown not in progress, and the device commands succeeding, the vibration
state is `on` exactly when the current sample is below the threshold and
`off` when it is at or above it; the decision is recomputed from the current
sample and current state. -/
theorem claim_C1 (s : MainState) (hsd : s.shutdownInProgress = false) :
    (s.heartRate < CONFIG.HR_THRESHOLD →
      ((processHeartRate true .success .success s).1).vibrationState = "on") ∧
    (CONFIG.HR_THRESHOLD ≤ s.heartRate →
      ((processHeartRate true .success .success s).1).vibrationState = "off") := by
  unfold processHeartRate
  constructor <;> intro h
  · by_cases hv : s.vibrationState = "on" <;>
      simp [hsd, h, hv, not_le.mpr h]
  · by_cases hv : s.vibrationState = "off" <;>
      simp [hsd, h, hv, not_lt.mpr h]

/-- Witness for C1 at the initial state, whose sample 0 is below the
threshold. -/
theorem claim_C1_witness :
    initialState.shutdownInProgress = false ∧
    ((initialState.heartRate < CONFIG.HR_THRESHOLD →
      ((processHeartRate true .success .success initialState).1).vibrationState = "on") ∧
    (CONFIG.HR_THRESHOLD ≤ initialState.heartRate →
      ((processHeartRate true .success .success initialState).1).vibrationState = "off")) :=
  ⟨rfl, claim_C1 initialState rfl⟩

theorem processHeartRate_matched (ready : Bool) (o1 o2 : CmdOutcome)
    (s : MainState)
    (h : (s.heartRate < CONFIG.HR_THRESHOLD ∧ s.vibrationState = "on") ∨
         (CONFIG.HR_THRESHOLD ≤ s.heartRate ∧ s.vibrationState = "off")) :
    processHeartRate ready o1 o2 s = (s, []) := by
  unfold processHeartRate
  rcases h with ⟨h1, h2⟩ | ⟨h1, h2⟩
  · by_cases hr : ready <;> simp [hr, h1, h2, not_le.mpr h1]
  · by_cases hr : ready <;> simp [hr, h2, not_lt.mpr h1]

/-- Claim C5: any number of consecutive ticks on an unchanged sample whose
desired actuation state already equals the current one issues zero device
commands and leaves the state unchanged. -/
theorem claim_C5 (n : Nat) (ready : Bool) (o1 o2 : CmdOutcome) (s : MainState)
    (h : (s.heartRate < CONFIG.HR_THRESHOLD ∧ s.vibrationState = "on") ∨
         (CONFIG.HR_THRESHOLD ≤ s.heartRate ∧ s.vibrationState = "off")) :
    runTicks ready o1 o2 n s = (s, []) := by
  induction n with
  | zero => rfl
  | succ k ih =>
    unfold runTicks
    rw [processHeartRate_matched ready o1 o2 s h]
    simp [ih]

/-- Witness for C5: three ticks at sample 50 with the device already engaged
issue no commands. -/
theorem claim_C5_witness :
    (({ heartRate := 50, vibrationState := "on",
          connectRetries := 0,
          shutdownInProgress := false } : MainState).heartRate <
        CONFIG.HR_THRESHOLD ∧
      ({ heartRate := 50, vibrationState := "on",
          connectRetries := 0,
          shutdownInProgress := false } : MainState).vibrationState = "on") ∧
    runTicks true .success .success 3
      { heartRate := 50, vibrationState := "on",
          connectRetries := 0,
          shutdownInProgress := false } =
      ({ heartRate := 50, vibrationState := "on",
          connectRetries := 0,
          shutdownInProgress := false }, []) :=
  ⟨by decide, claim_C5 3 true .success .success _ (Or.inl (by decide))⟩

/-! ### Shutdown coordinator claims -/

theorem gracefulShutdown_latched (ready : Bool) (o : CmdOutcome) (p : Bool)
    (s : MainState) (h : s.shutdownInProgress = true) :
    gracefulShutdown ready o p s = ⟨s, [], none⟩ := by
  unfold gracefulShutdown
  simp [h]

theorem gracefulShutdown_latches (ready : Bool) (o : CmdOutcome) (p : Bool)
    (s : MainState) :
    (gracefulShutdown ready o p s).state.shutdownInProgress = true := by
  unfold gracefulShutdown
  by_cases h : s.shutdownInProgress
  · simp [h]
  · by_cases h2 : ready = true ∧ s.vibrationState = "on" <;>
      cases o <;> simp [h, h2]

theorem processHeartRate_shutdown_eq (r : Bool) (o1 o2 : CmdOutcome)
    (s : MainState) :
    ((processHeartRate r o1 o2 s).1).shutdownInProgress = s.shutdownInProgress := by
  unfold processHeartRate
  repeat' split
  all_goals rfl

theorem handleMessage_shutdown_eq (msg : Option InboundMsg) (s : MainState) :
    ((handleMessage msg s).state).shutdownInProgress = s.shutdownInProgress := by
  unfold handleMessage
  repeat' split
  all_goals rfl

theorem connectWithRetry_latched (outc : Nat → Bool) (idx : Nat)
    (s : MainState) (h : s.shutdownInProgress = true) :
    connectWithRetry outc idx s = (s, 0) := by
  rw [connectWithRetry]
  simp [h]

/-- Claim C4: the shutdown trigger is idempotent through the
`shutdownInProgress` latch — a latched state makes `gracefulShutdown` return
without steps, every invocation leaves the latch set, a second invocation
after any first one performs no teardown step, and no operation of the
program (tick, message handler, retry loop) resets the latch. -/
theorem claim_C4 (ready : Bool) (offOutcome : CmdOutcome) (hasProc : Bool)
    (s : MainState) :
    (s.shutdownInProgress = true →
      gracefulShutdown ready offOutcome hasProc s = ⟨s, [], none⟩) ∧
    (gracefulShutdown ready offOutcome hasProc s).state.shutdownInProgress = true ∧
    (∀ r2 o2 p2, gracefulShutdown r2 o2 p2
        (gracefulShutdown ready offOutcome hasProc s).state =
      ⟨(gracefulShutdown ready offOutcome hasProc s).state, [], none⟩) ∧
    (∀ r2 o1 o2, ((processHeartRate r2 o1 o2
        (gracefulShutdown ready offOutcome hasProc s).state).1).shutdownInProgress =
      true) ∧
    (∀ msg, ((handleMessage msg
        (gracefulShutdown ready offOutcome hasProc s).state).state).shutdownInProgress =
      true) ∧
    (∀ outc idx, connectWithRetry outc idx
        (gracefulShutdown ready offOutcome hasProc s).state =
      ((gracefulShutdown ready offOutcome hasProc s).state, 0)) :=
  ⟨fun h => gracefulShutdown_latched ready offOutcome hasProc s h,
   gracefulShutdown_latches ready offOutcome hasProc s,
   fun r2 o2 p2 => gracefulShutdown_latched r2 o2 p2 _
     (gracefulShutdown_latches ready offOutcome hasProc s),
   fun r2 o1 o2 => (processHeartRate_shutdown_eq r2 o1 o2 _).trans
     (gracefulShutdown_latches ready offOutcome hasProc s),
   fun msg => (handleMessage_shutdown_eq msg _).trans
     (gracefulShutdown_latches ready offOutcome hasProc s),
   fun outc idx => connectWithRetry_latched outc idx _
     (gracefulShutdown_latches ready offOutcome hasProc s)⟩

/-- Claim C2 counterexample: from a non-latched state with the device ready
and engaged, a failing `off()` makes the teardown stop after the timer-clear
and off steps — the disconnect, server-close and child-kill steps are not
attempted — while the process exits with code 1, contradicting the claim
that all subsequent steps are still attempted. -/
theorem claim_C2_cex :
    (gracefulShutdown true .failure true
        { heartRate := 95, vibrationState := "on",
            connectRetries := 0,
            shutdownInProgress := false }).steps =
      [.clearTimer, .deviceOff] ∧
    ShutdownStep.disconnect ∉ (gracefulShutdown true .failure true
        { heartRate := 95, vibrationState := "on",
            connectRetries := 0,
            shutdownInProgress := false }).steps ∧
    ShutdownStep.closeServer ∉ (gracefulShutdown true .failure true
        { heartRate := 95, vibrationState := "on",
            connectRetries := 0,
            shutdownInProgress := false }).steps ∧
    ShutdownStep.killProc ∉ (gracefulShutdown true .failure true
        { heartRate := 95, vibrationState := "on",
            connectRetries := 0,
            shutdownInProgress := false }).steps ∧
    (gracefulShutdown true .failure true
        { heartRate := 95, vibrationState := "on",
            connectRetries := 0,
            shutdownInProgress := false }).exitCode = some 1 := by
  decide

/-- Claim C2 amended: when a teardown step fails — `off()` rejecting, the
only fallible step — the remaining steps of the fixed sequence are skipped
and the process exits with code 1; only the steps before the failure run. -/
theorem claim_C2_amended (hasProc : Bool) (s : MainState)
    (h1 : s.shutdownInProgress = false) (h2 : s.vibrationState = "on") :
    (gracefulShutdown true .failure hasProc s).steps =
      [.clearTimer, .deviceOff] ∧
    (gracefulShutdown true .failure hasProc s).exitCode = some 1 := by
  unfold gracefulShutdown
  simp [h1, h2]

/-- Witness for the amended C2 at a concrete engaged state. -/
theorem claim_C2_amended_witness :
    (({ heartRate := 80, vibrationState := "on",
          connectRetries := 0,
          shutdownInProgress := false } : MainState).shutdownInProgress = false ∧
      ({ heartRate := 80, vibrationState := "on",
          connectRetries := 0,
          shutdownInProgress := false } : MainState).vibrationState = "on") ∧
    ((gracefulShutdown true .failure false
        { heartRate := 80, vibrationState := "on",
            connectRetries := 0,
            shutdownInProgress := false }).steps =
      [.clearTimer, .deviceOff] ∧
    (gracefulShutdown true .failure false
        { heartRate := 80, vibrationState := "on",
            connectRetries := 0,
            shutdownInProgress := false }).exitCode = some 1) :=
  ⟨⟨rfl, rfl⟩, claim_C2_amended false _ rfl rfl⟩

/-- Witness for C4 at the initial state. -/
theorem claim_C4_witness :
    (initialState.shutdownInProgress = true →
      gracefulShutdown true .success true initialState = ⟨initialState, [], none⟩) ∧
    (gracefulShutdown true .success true initialState).state.shutdownInProgress = true ∧
    (∀ r2 o2 p2, gracefulShutdown r2 o2 p2
        (gracefulShutdown true .success true initialState).state =
      ⟨(gracefulShutdown true .success true initialState).state, [], none⟩) ∧
    (∀ r2 o1 o2, ((processHeartRate r2 o1 o2
        (gracefulShutdown true .success true initialState).state).1).shutdownInProgress =
      true) ∧
    (∀ msg, ((handleMessage msg
        (gracefulShutdown true .success true initialState).state).state).shutdownInProgress =
      true) ∧
    (∀ outc idx, connectWithRetry outc idx
        (gracefulShutdown true .success true initialState).state =
      ((gracefulShutdown true .success true initialState).state, 0)) :=
  claim_C4 true .success true initialState

/-! ### Telemetry protocol handler claims -/

/-- Claim C6: an update request for the heart-rate field whose truthy text
payload does not parse as a base-10 integer leaves the state unchanged,
throws nothing (the session stays open, no error is surfaced), and still
answers with the single success `RequestResponse`. -/
theorem claim_C6 (s : MainState) (d : RequestPayload) (rd : RequestData)
    (t : String)
    (hty : d.requestType = some ("SetInputSettings"))
    (hrd : d.requestData = some rd)
    (hin : rd.inputName = some ("heartrate"))
    (htx : truthyText rd.inputSettings = some t)
    (hp : jsParseInt t = none) :
    handleMessage (some ⟨some 6, some d⟩) s =
      ⟨s, [.requestResponse d.requestType d.requestId true 100], false⟩ := by
  unfold handleMessage
  simp [hty, hrd, hin, htx, hp]

/-- Witness for C6 on the non-numeric payload text `abc`. -/
theorem claim_C6_witness :
    ((some ("SetInputSettings") : Option String) = some ("SetInputSettings") ∧
      (some (⟨some ("heartrate"), some ⟨some ("abc")⟩⟩ : RequestData) : Option RequestData) =
        some ⟨some ("heartrate"), some ⟨some ("abc")⟩⟩ ∧
      (some ("heartrate") : Option String) = some ("heartrate") ∧
      truthyText (some ⟨some ("abc")⟩) = some ("abc") ∧
      jsParseInt "abc" = none) ∧
    handleMessage (some ⟨some 6, some ⟨some ("SetInputSettings"), some ("r1"),
        some ⟨some ("heartrate"), some ⟨some ("abc")⟩⟩⟩⟩) initialState =
      ⟨initialState,
        [.requestResponse (some ("SetInputSettings")) (some ("r1")) true 100],
        false⟩ :=
  ⟨⟨rfl, rfl, rfl, rfl, by decide⟩,
   claim_C6 initialState ⟨some ("SetInputSettings"), some ("r1"),
       some ⟨some ("heartrate"), some ⟨some ("abc")⟩⟩⟩
     ⟨some ("heartrate"), some ⟨some ("abc")⟩⟩ "abc" rfl rfl rfl rfl (by decide)⟩

/-- Claim C3 counterexample: a request that carries the request id `req-1`
but whose request type is not `SetInputSettings` receives no
`RequestResponse` at all, contradicting the claim that every inbound request
carrying a request id is answered regardless of its type. -/
theorem claim_C3_cex :
    (handleMessage (some ⟨some 6,
        some ⟨some ("GetVersion"), some ("req-1"), none⟩⟩)
      initialState).outbound = [] ∧
    (some ("req-1") : Option String) ≠ none := by
  decide

/-- Claim C3 amended: the handler sends exactly one `RequestResponse` — with
status `{result: true, code: 100}` and echoing the inbound `requestType` and
`requestId` fields, the latter even when absent — precisely for messages
with `op` 6, request type `SetInputSettings` and a present `requestData`
object, regardless of the target field name or whether the payload parsed;
every other inbound message yields no `RequestResponse`. -/
theorem claim_C3_amended (m : InboundMsg) (s : MainState) :
    (∀ d rd, m.op = some 6 → m.d = some d →
      d.requestType = some ("SetInputSettings") → d.requestData = some rd →
      (handleMessage (some m) s).outbound =
        [.requestResponse d.requestType d.requestId true 100]) ∧
    (∀ rt rid b c,
      Outbound.requestResponse rt rid b c ∈ (handleMessage (some m) s).outbound →
      ∃ d rd, m.op = some 6 ∧ m.d = some d ∧
        d.requestType = some ("SetInputSettings") ∧ d.requestData = some rd ∧
        rt = d.requestType ∧ rid = d.requestId ∧ b = true ∧ c = 100) := by
  constructor
  · intro d rd h1 h2 h3 h4
    unfold handleMessage
    simp [h1, h2, h3, h4]
  · intro rt rid b c hmem
    unfold handleMessage at hmem
    by_cases h1 : m.op = some 1
    · simp [h1] at hmem
    · by_cases h6 : m.op = some 6
      · rcases hd : m.d with _ | d
        · simp [h1, h6, hd] at hmem
        · by_cases hty : d.requestType = some ("SetInputSettings")
          · rcases hrd : d.requestData with _ | rd
            · simp [h1, h6, hd, hty, hrd] at hmem
            · simp [h1, h6, hd, hty, hrd] at hmem
              exact ⟨d, rd, h6, rfl, hty, hrd, hmem.1.trans hty.symm,
                hmem.2.1, hmem.2.2.1, hmem.2.2.2⟩
          · simp [h1, h6, hd, hty] at hmem
      · simp [h1, h6] at hmem

/-- Witness for the amended C3 on a concrete well-typed update request. -/
theorem claim_C3_amended_witness :
    (∀ d rd, (⟨some 6, some ⟨some ("SetInputSettings"), some ("r2"), some ⟨none, none⟩⟩⟩ :
        InboundMsg).op = some 6 →
      (⟨some 6, some ⟨some ("SetInputSettings"), some ("r2"), some ⟨none, none⟩⟩⟩ :
        InboundMsg).d = some d →
      d.requestType = some ("SetInputSettings") → d.requestData = some rd →
      (handleMessage (some ⟨some 6, some ⟨some ("SetInputSettings"), some ("r2"),
          some ⟨none, none⟩⟩⟩) initialState).outbound =
        [.requestResponse d.requestType d.requestId true 100]) ∧
    (∀ rt rid b c,
      Outbound.requestResponse rt rid b c ∈
        (handleMessage (some ⟨some 6, some ⟨some ("SetInputSettings"), some ("r2"),
          some ⟨none, none⟩⟩⟩) initialState).outbound →
      ∃ d rd, (⟨some 6, some ⟨some ("SetInputSettings"), some ("r2"), some ⟨none, none⟩⟩⟩ :
          InboundMsg).op = some 6 ∧
        (⟨some 6, some ⟨some ("SetInputSettings"), some ("r2"), some ⟨none, none⟩⟩⟩ :
          InboundMsg).d = some d ∧
        d.requestType = some ("SetInputSettings") ∧ d.requestData = some rd ∧
        rt = d.requestType ∧ rid = d.requestId ∧ b = true ∧ c = 100) :=
  claim_C3_amended ⟨some 6, some ⟨some ("SetInputSettings"), some ("r2"),
    some ⟨none, none⟩⟩⟩ initialState

/-- Claim C9 counterexample: an accepted update whose payload text is `-5`
writes the negative integer -5 into the heart-rate sample, contradicting the
claim that the sample is non-negative in every reachable state. -/
theorem claim_C9_cex :
    ((handleMessage (some ⟨some 6, some ⟨some ("SetInputSettings"), some ("r1"),
        some ⟨some ("heartrate"), some ⟨some ("-5")⟩⟩⟩⟩)
      initialState).state.heartRate) = -5 ∧
    ((handleMessage (some ⟨some 6, some ⟨some ("SetInputSettings"), some ("r1"),
        some ⟨some ("heartrate"), some ⟨some ("-5")⟩⟩⟩⟩)
      initialState).state.heartRate) < 0 := by
  decide

/-- Claim C9 amended: every accepted inbound telemetry update — a request
for the designated heart-rate field whose truthy text parses — overwrites
the heart-rate sample with the parsed integer, last-write-wins with no
history retained; the parsed value may be negative, so non-negativity is not
an invariant. -/
theorem claim_C9_amended (s : MainState) (d : RequestPayload)
    (rd : RequestData) (t : String) (v : Int)
    (hty : d.requestType = some ("SetInputSettings"))
    (hrd : d.requestData = some rd)
    (hin : rd.inputName = some ("heartrate"))
    (htx : truthyText rd.inputSettings = some t)
    (hp : jsParseInt t = some v) :
    (handleMessage (some ⟨some 6, some d⟩) s).state =
      { s with heartRate := v } := by
  unfold handleMessage
  simp [hty, hrd, hin, htx, hp]

/-- Witness for the amended C9 on the payload text `120` over a state whose
previous sample was 42. -/
theorem claim_C9_amended_witness :
    ((some ("SetInputSettings") : Option String) = some ("SetInputSettings") ∧
      truthyText (some ⟨some ("120")⟩) = some ("120") ∧
      jsParseInt "120" = some 120) ∧
    (handleMessage (some ⟨some 6, some ⟨some ("SetInputSettings"), some ("r3"),
        some ⟨some ("heartrate"), some ⟨some ("120")⟩⟩⟩⟩)
      { heartRate := 42, vibrationState := "off",
          connectRetries := 0,
          shutdownInProgress := false }).state =
      { heartRate := 120, vibrationState := "off",
          connectRetries := 0,
          shutdownInProgress := false } :=
  ⟨⟨rfl, rfl, by decide⟩,
   claim_C9_amended _ ⟨some ("SetInputSettings"), some ("r3"),
       some ⟨some ("heartrate"), some ⟨some ("120")⟩⟩⟩
     ⟨some ("heartrate"), some ⟨some ("120")⟩⟩ "120" 120 rfl rfl rfl rfl
     (by decide)⟩

/-! ### Connection retry claims -/

theorem connectWithRetry_allFail (outcome : Nat → Bool)
    (hout : ∀ i, outcome i = false) (k : Nat) :
    ∀ idx s, s.shutdownInProgress = false →
      s.connectRetries + k = CONFIG.CONNECTION_RETRIES → 0 < k →
      connectWithRetry outcome idx s =
        ({ s with connectRetries := CONFIG.CONNECTION_RETRIES }, k) := by
  induction k with
  | zero => intro idx s _ _ hpos; exact absurd hpos (by omega)
  | succ k ih =>
    intro idx s hsd hsum _
    rw [connectWithRetry]
    by_cases hlt : s.connectRetries + 1 < CONFIG.CONNECTION_RETRIES
    · have hk : 0 < k := by omega
      have hrec := ih (idx + 1) { s with connectRetries := s.connectRetries + 1 }
        hsd (by simp; omega) hk
      simp [hsd] at hrec
      simp [hsd, hout idx, hlt, hrec]
    · have hk : k = 0 := by omega
      have hmax : s.connectRetries + 1 = CONFIG.CONNECTION_RETRIES := by omega
      subst hk
      simp [hsd, hout idx, hlt, hmax]

/-- Claim C7: when every connection attempt fails, starting from a zero
retry counter outside shutdown, exactly `CONFIG.CONNECTION_RETRIES` attempts
are performed and the counter ends at the maximum, below which a new attempt
is no longer scheduled; when an attempt succeeds, the counter resets to
zero after that single attempt. -/
theorem claim_C7 (outcome : Nat → Bool) (idx : Nat) (s : MainState)
    (hsd : s.shutdownInProgress = false) :
    ((∀ i, outcome i = false) → s.connectRetries = 0 →
      connectWithRetry outcome idx s =
        ({ s with connectRetries := CONFIG.CONNECTION_RETRIES },
          CONFIG.CONNECTION_RETRIES)) ∧
    (outcome idx = true →
      connectWithRetry outcome idx s = ({ s with connectRetries := 0 }, 1)) := by
  constructor
  · intro hout hzero
    exact connectWithRetry_allFail outcome hout CONFIG.CONNECTION_RETRIES idx s
      hsd (by omega) (by decide)
  · intro hsucc
    rw [connectWithRetry]
    simp [hsd, hsucc]

/-- Witness for C7 from the initial state with every attempt failing:
exactly five attempts, the configured maximum. -/
theorem claim_C7_witness :
    initialState.shutdownInProgress = false ∧
    (((∀ i, (fun _j : Nat => false) i = false) → initialState.connectRetries = 0 →
      connectWithRetry (fun _j : Nat => false) 0 initialState =
        ({ initialState with connectRetries := CONFIG.CONNECTION_RETRIES },
          CONFIG.CONNECTION_RETRIES)) ∧
    ((fun _j : Nat => false) 0 = true →
      connectWithRetry (fun _j : Nat => false) 0 initialState =
        ({ initialState with connectRetries := 0 }, 1))) :=
  ⟨rfl, claim_C7 (fun _j : Nat => false) 0 initialState rfl⟩

/-! ### Connection supervisor claims -/

/-- Claim C8: in every bp.js state reachable through the connection
supervisor operations, at most one of `isConnecting` and `isConnected` is
true, and each operation preserves this mutual exclusion. -/
theorem claim_C8 (s : BpState) (h : ReachableBp s) :
    statusMutex s ∧
    ∀ o : ConnectOutcome, statusMutex (connectToButtplug o s).1 ∧
      statusMutex (safeDisconnect s) ∧ statusMutex (disconnectButtplug s) := by
  have hm : statusMutex s := by
    induction h with
    | init =>
      rintro ⟨h1, h2⟩
      simp [initialBpState] at h1
    | connect o _ ih => exact statusMutex_connect o _ ih
    | disconnect _ ih => exact statusMutex_safeDisconnect _ ih
    | safeDisc _ ih => exact statusMutex_safeDisconnect _ ih
  exact ⟨hm, fun o => ⟨statusMutex_connect o s hm,
    statusMutex_safeDisconnect s hm, statusMutex_safeDisconnect s hm⟩⟩

/-- Witness for C8 at the reachable initial module state. -/
theorem claim_C8_witness :
    statusMutex initialBpState ∧
    ∀ o : ConnectOutcome, statusMutex (connectToButtplug o initialBpState).1 ∧
      statusMutex (safeDisconnect initialBpState) ∧
      statusMutex (disconnectButtplug initialBpState) :=
  claim_C8 initialBpState ReachableBp.init

/-- Claim C10: whenever `connectToButtplug` rejects for a reason other than
the busy guard, the module is left fully disconnected: the client and
device handles are null, `isConnected` is false and `isReady()` is false. -/
theorem claim_C10 (s : BpState) (o : ConnectOutcome)
    (h : (connectToButtplug o s).2 = .rejectedOther) :
    (connectToButtplug o s).1.clientExists = false ∧
    (connectToButtplug o s).1.deviceExists = false ∧
    (connectToButtplug o s).1.isConnected = false ∧
    isReady (connectToButtplug o s).1 = false := by
  unfold connectToButtplug at *
  by_cases h1 : s.isConnecting
  · simp [h1] at h
  · by_cases h2 : s.clientExists && s.clientConnected
    · simp [h1, h2] at h
    · cases o <;> simp [h1, h2, safeDisconnect, isReady] at *

/-- Witness for C10: a transport-connect failure from the initial module
state leaves the module fully disconnected. -/
theorem claim_C10_witness :
    (connectToButtplug .connectFail initialBpState).2 = .rejectedOther ∧
    ((connectToButtplug .connectFail initialBpState).1.clientExists = false ∧
    (connectToButtplug .connectFail initialBpState).1.deviceExists = false ∧
    (connectToButtplug .connectFail initialBpState).1.isConnected = false ∧
    isReady (connectToButtplug .connectFail initialBpState).1 = false) :=
  ⟨by decide, claim_C10 initialBpState .connectFail (by decide)⟩

end HeartrateButtplug
